import Mathlib

/-!
Verification of the DatabaseFinal dashboards (src/database.py, the PTM/drug
viewer, and src/app_full_crud.py, the monsters viewer) against their
natural-language specification.

The Python scripts are shallowly embedded:
* database tables become Lean lists of rows;
* each query/mutation helper becomes a function from the outcome of the
  underlying driver operation (which may fail) and the current table to the
  helper's result;
* pandas data frames are modelled by their column list and row list;
* Python float scores are modelled by rationals, which is exact on every
  value the claims mention;
* the randomness of random.uniform is a parameter: a function from the row
  index to a rational draw in [0, 1).
-/

/-- A driver-level database failure (connectivity, constraint violation,
server-side timeout), as caught or propagated by the helpers. -/
inductive DBErr where
  | connectivity
  | constraint
  | timeout
  deriving DecidableEq, Repr

/-- The outcome of one underlying driver operation: either it fails with an
exception or it yields the rows the statement produced. -/
def DBOutcome (α : Type) := Option DBErr × α

/-- fetch_df from src/database.py line 62 (identical in src/app_full_crud.py
line 33): runs the query inside try/except; on any exception it shows the
error message and returns an empty DataFrame, otherwise the query rows. -/
def fetch_df (fail : Option DBErr) (rows : List α) : List α :=
  match fail with
  | some _ => []
  | none => rows

/-- SQL UPDATE ... WHERE p ... RETURNING: returns the new table contents and
the list of updated rows, in scan order. -/
def sqlUpdate (p : ρ → Bool) (f : ρ → ρ) (t : List ρ) : List ρ × List ρ :=
  (t.map fun r => if p r then f r else r, (t.filter p).map f)

/-- SQL DELETE ... WHERE p ... RETURNING: returns the new table contents and
the list of deleted rows, in scan order. -/
def sqlDelete (p : ρ → Bool) (t : List ρ) : List ρ × List ρ :=
  (t.filter fun r => !(p r), t.filter p)

/-- The Python idiom closing every write helper:
df.iloc 0 .to_dict() if not df.empty else None — the first returned row's
field mapping, or None when the RETURNING set is empty. -/
def firstRowOrNone (returning : List ρ) : Option ρ :=
  returning.head?

/-- Result of a write helper: the statement has no try/except, so a driver
failure propagates out of the helper as an exception (Except.error); on
success the helper returns the new table and the first returned row or
none. -/
def WriteResult (ρ : Type) := Except DBErr (List ρ × Option ρ)

/-- insert_ptm from src/database.py line 71: INSERT INTO ptms(ptm)
VALUES (:n) RETURNING ptm. No try/except wraps the statement. -/
def insert_ptm (fail : Option DBErr) (ptms : List String) (n : String) :
    WriteResult String :=
  match fail with
  | some e => .error e
  | none =>
      let returning := [n]
      .ok (ptms ++ [n], firstRowOrNone returning)

/-- update_ptm from src/database.py line 81: UPDATE ptms SET ptm = :n
WHERE ptm = :c RETURNING ptm. No try/except wraps the statement. -/
def update_ptm (fail : Option DBErr) (ptms : List String) (c n : String) :
    WriteResult String :=
  match fail with
  | some e => .error e
  | none =>
      let r := sqlUpdate (fun p => p == c) (fun _ => n) ptms
      .ok (r.1, firstRowOrNone r.2)

/-- delete_ptm from src/database.py line 92: DELETE FROM ptms
WHERE ptm = :mid RETURNING ptm. No try/except wraps the statement. -/
def delete_ptm (fail : Option DBErr) (ptms : List String) (mid : String) :
    WriteResult String :=
  match fail with
  | some e => .error e
  | none =>
      let r := sqlDelete (fun p => p == mid) ptms
      .ok (r.1, firstRowOrNone r.2)

/-- insert_drug from src/database.py line 102: INSERT INTO drugs(drug)
VALUES (:n) RETURNING drug. No try/except wraps the statement. -/
def insert_drug (fail : Option DBErr) (drugs : List String) (n : String) :
    WriteResult String :=
  match fail with
  | some e => .error e
  | none =>
      let returning := [n]
      .ok (drugs ++ [n], firstRowOrNone returning)

/-- update_drug from src/database.py line 112: UPDATE drugs SET drug = :n
WHERE drug = :c RETURNING drug. No try/except wraps the statement. -/
def update_drug (fail : Option DBErr) (drugs : List String) (c n : String) :
    WriteResult String :=
  match fail with
  | some e => .error e
  | none =>
      let r := sqlUpdate (fun d => d == c) (fun _ => n) drugs
      .ok (r.1, firstRowOrNone r.2)

/-- delete_drug from src/database.py line 123: DELETE FROM drugs
WHERE drug = :mid RETURNING drug. No try/except wraps the statement. -/
def delete_drug (fail : Option DBErr) (drugs : List String) (mid : String) :
    WriteResult String :=
  match fail with
  | some e => .error e
  | none =>
      let r := sqlDelete (fun d => d == mid) drugs
      .ok (r.1, firstRowOrNone r.2)

/-- A row of ptm_correlation_matrix as addressed by update_spearman:
the helper's SQL filters on an id column and sets spearman_score. -/
structure CorrRow where
  id : Int
  ptm1 : String
  ptm2 : String
  spearman_score : ℚ
  deriving DecidableEq, Repr

/-- update_spearman from src/database.py line 133: UPDATE
ptm_correlation_matrix SET spearman_score = :v WHERE id = :r
RETURNING spearman_score. No try/except wraps the statement. -/
def update_spearman (fail : Option DBErr) (t : List CorrRow) (row : Int)
    (val : ℚ) : WriteResult CorrRow :=
  match fail with
  | some e => .error e
  | none =>
      let r := sqlUpdate (fun x => x.id == row)
        (fun x => { x with spearman_score := val }) t
      .ok (r.1, firstRowOrNone r.2)

/-- A row of the monsters table from src/app_full_crud.py. -/
structure Monster where
  id : Int
  name : String
  monster_type : Option String
  scare_level : Int
  house_id : Int
  deriving DecidableEq, Repr

/-- insert_monster from src/app_full_crud.py line 48: INSERT INTO monsters
(name, type, scare_level, house_id) VALUES ... RETURNING all columns.
The fresh id is assigned by the database sequence, modelled as a
parameter. No try/except wraps the statement. -/
def insert_monster (fail : Option DBErr) (t : List Monster) (freshId : Int)
    (name : String) (mtype : Option String) (scare houseId : Int) :
    WriteResult Monster :=
  match fail with
  | some e => .error e
  | none =>
      let row : Monster :=
        { id := freshId, name := name, monster_type := mtype,
          scare_level := scare, house_id := houseId }
      .ok (t ++ [row], firstRowOrNone [row])

/-- update_monster from src/app_full_crud.py line 58: UPDATE monsters
SET ... WHERE id = :mid RETURNING all columns. No try/except wraps the
statement. -/
def update_monster (fail : Option DBErr) (t : List Monster) (mid : Int)
    (name : String) (mtype : Option String) (scare houseId : Int) :
    WriteResult Monster :=
  match fail with
  | some e => .error e
  | none =>
      let r := sqlUpdate (fun m => m.id == mid)
        (fun m => { m with name := name, monster_type := mtype,
                           scare_level := scare, house_id := houseId }) t
      .ok (r.1, firstRowOrNone r.2)

/-- delete_monster from src/app_full_crud.py line 69: DELETE FROM monsters
WHERE id = :mid RETURNING all columns. No try/except wraps the statement. -/
def delete_monster (fail : Option DBErr) (t : List Monster) (mid : Int) :
    WriteResult Monster :=
  match fail with
  | some e => .error e
  | none =>
      let r := sqlDelete (fun m => m.id == mid) t
      .ok (r.1, firstRowOrNone r.2)

/-- The whitespace characters removed by the str.strip() method. -/
def isPySpace (c : Char) : Bool :=
  c == ' ' || c == '\t' || c == '\n' || c == '\r' || c == '\x0b' || c == '\x0c'

/-- Python str.strip() with no argument: drops leading and trailing
whitespace. -/
def pyStrip (s : String) : String :=
  String.mk (((s.data.dropWhile isPySpace).reverse.dropWhile isPySpace).reverse)

/-- Outcome of submitting an insert form: the table after the handler ran,
whether the validation warning was surfaced, and whether the insert helper
was invoked. -/
structure InsertFormResult (ρ : Type) where
  table : List ρ
  warned : Bool
  helperCalled : Bool
  deriving DecidableEq, Repr

/-- The Insert PTM form handler, src/database.py lines 165-172: on submit,
if not ptm.strip() then surface the warning, else call insert_ptm on the
stripped field. The error branch is unreachable because the helper is run
with no injected failure. -/
def ptmInsertForm (ptmField : String) (ptms : List String) :
    InsertFormResult String :=
  if pyStrip ptmField = "" then
    { table := ptms, warned := true, helperCalled := false }
  else
    match insert_ptm none ptms (pyStrip ptmField) with
    | .ok r => { table := r.1, warned := false, helperCalled := true }
    | .error _ => { table := ptms, warned := false, helperCalled := true }

/-- The Insert DRUG form handler, src/database.py lines 230-237: on submit
the guard tests ptm.strip() — the PTM field of the form above, still in
scope — not drug.strip(), and otherwise calls insert_drug on the stripped
drug field. -/
def drugInsertForm (ptmField drugField : String) (drugs : List String) :
    InsertFormResult String :=
  if pyStrip ptmField = "" then
    { table := drugs, warned := true, helperCalled := false }
  else
    match insert_drug none drugs (pyStrip drugField) with
    | .ok r => { table := r.1, warned := false, helperCalled := true }
    | .error _ => { table := drugs, warned := false, helperCalled := true }

/-- The monster Insert form handler, src/app_full_crud.py lines 124-128: on
submit, if not name.strip() then surface the warning, else call
insert_monster(name.strip(), mtype.strip() or None, scare, house). -/
def monsterInsertForm (nameField mtypeField : String) (scare houseId : Int)
    (freshId : Int) (t : List Monster) : InsertFormResult Monster :=
  if pyStrip nameField = "" then
    { table := t, warned := true, helperCalled := false }
  else
    let mtype := if pyStrip mtypeField = "" then none else some (pyStrip mtypeField)
    match insert_monster none t freshId (pyStrip nameField) mtype scare houseId with
    | .ok r => { table := r.1, warned := false, helperCalled := true }
    | .error _ => { table := t, warned := false, helperCalled := true }

/-- The process environment: a partial map from variable name to value. -/
def Env : Type := String → Option String

/-- Python truthiness of os.getenv output: None and the empty string are
falsy, anything else truthy. -/
def truthy : Option String → Bool
  | none => false
  | some s => !(s == "")

/-- The five connection settings assembled at startup. -/
structure DBConfig where
  host : String
  port : String
  database : String
  user : String
  password : String
  deriving DecidableEq, Repr

/-- Startup of src/app_full_crud.py lines 11-19 (src/database.py lines
13-22 is identical for these five variables): read the env vars with
defaults for host and port; when not all of database, user and password
are truthy, show the error message and st.stop() — the process halts
before any engine or connection exists. -/
def startup (env : Env) : Except String DBConfig :=
  let host := (env "PGHOST").getD "localhost"
  let port := (env "PGPORT").getD "5432"
  let database := env "PGDATABASE"
  let user := env "PGUSER"
  let password := env "PGPASSWORD"
  if !(truthy database && truthy user && truthy password) then
    .error "Missing DB credentials. Please set PGDATABASE, PGUSER, and PGPASSWORD in your .env file."
  else
    .ok { host := host, port := port, database := database.getD "",
          user := user.getD "", password := password.getD "" }

/-- The cross join produced by pd.merge(ptms, drugs) on a constant key
column (src/database.py lines 291-293): every row of ptms paired with
every row of drugs, left-major order. -/
def crossJoin (ptms drugs : List String) : List (String × String) :=
  ptms.flatMap fun p => drugs.map fun d => (p, d)

/-- random.uniform(a, b) = a + (b - a) * random(), with the draw of
random() a parameter in [0, 1). -/
def uniform (a b draw : ℚ) : ℚ := a + (b - a) * draw

/-- One row as written to the ptmdataset table by to_sql: the frame index,
the ptm, the constant cross-join key, the drug, and the reaction score. -/
structure DatasetRow where
  index : Nat
  ptm : String
  key : Int
  drug : String
  reaction_score : ℚ
  deriving DecidableEq, Repr

/-- Column list of pd.merge(left, right, on=key): the left frame's columns
(the key stays in place) followed by the right frame's non-key columns. -/
def mergeCols (left right : List String) (key : String) : List String :=
  left ++ right.filter fun c => !(c == key)

/-- Columns of the in-memory ptmdataset frame of the Dataset tab: the ptm
frame and the drug frame each gain a key column at the end, they are
merged on it, then reaction_score is assigned as a new last column. -/
def ptmdatasetFrameCols : List String :=
  mergeCols (["ptm"] ++ ["key"]) (["drug"] ++ ["key"]) "key" ++ ["reaction_score"]

/-- to_sql with the default index=True writes the unnamed RangeIndex as a
first column labelled index. -/
def toSqlCols (cols : List String) : List String := "index" :: cols

/-- The rows written to ptmdataset by the Dataset tab (src/database.py
lines 288-304): the cross join of the distinct ptms and drugs, each row r
given the score random.uniform(0, 10) drawn in row order. -/
def ptmdatasetRows (ptms drugs : List String) (draw : Nat → ℚ) :
    List DatasetRow :=
  (crossJoin ptms drugs).enum.map fun r =>
    { index := r.1, ptm := r.2.1, key := 0, drug := r.2.2,
      reaction_score := uniform 0 10 (draw r.1) }

/-- A materialized SQL table: its column names and its rows. -/
structure SqlTable where
  cols : List String
  rows : List DatasetRow
  deriving DecidableEq, Repr

/-- ptmdataset.to_sql(if_exists=replace) on each view of the Dataset tab:
whatever the table held before, it is dropped and recreated with the
frame's columns and rows. -/
def writeDatasetTab (ptms drugs : List String) (draw : Nat → ℚ)
    (_old : Option SqlTable) : Option SqlTable :=
  some { cols := toSqlCols ptmdatasetFrameCols,
         rows := ptmdatasetRows ptms drugs draw }

/-- One iteration body of the correlation loop: min(s1,s2)/max(s1,s2),
where Python float division raises ZeroDivisionError on a zero
denominator, so the quotient is none exactly when max s1 s2 = 0. -/
def corrEntry (s1 s2 : ℚ) : Option ℚ :=
  if max s1 s2 = 0 then none else some (min s1 s2 / max s1 s2)

/-- The ordered pairs visited by the nested loop of src/database.py lines
320-330 (i outer, j inner), in visit order, from the grouped rows
(ptm, SUM(reaction_score)). -/
def corrPairs (rs : List (String × ℚ)) :
    List ((String × ℚ) × (String × ℚ)) :=
  rs.flatMap fun a => rs.map fun b => (a, b)

/-- Runs the loop body over the pair list, aborting with none at the first
ZeroDivisionError exactly as the exception aborts the Python loop. -/
def corrBuild :
    List ((String × ℚ) × (String × ℚ)) → Option (List (String × String × ℚ))
  | [] => some []
  | ab :: rest =>
      match corrEntry ab.1.2 ab.2.2 with
      | none => none
      | some q => (corrBuild rest).map fun l => (ab.1.1, ab.2.1, q) :: l

/-- The rows (ptm1, ptm2, spearman_score) of ptm_correlation_matrix
computed by the Correlation Matrix tab; none when the loop raises
ZeroDivisionError. -/
def correlationRows (rs : List (String × ℚ)) :
    Option (List (String × String × ℚ)) :=
  corrBuild (corrPairs rs)

/-- The pool knobs passed to create_engine. -/
structure PoolConfig where
  pre_ping : Bool
  size : Nat
  max_overflow : Nat
  timeout : Nat
  recycle : Nat
  deriving DecidableEq, Repr

/-- The configuration get_engine (src/database.py lines 40-48) passes:
pool_pre_ping=True, pool_size=5, max_overflow=0, pool_timeout=5,
pool_recycle=1800. -/
def getEngineConfig : PoolConfig :=
  { pre_ping := true, size := 5, max_overflow := 0, timeout := 5,
    recycle := 1800 }

/-- A physical database connection: the session statement_timeout value
(none until some SET runs), its creation time, and whether the server end
is still alive. -/
structure PConn where
  statement_timeout : Option Nat
  createdAt : Nat
  live : Bool
  deriving DecidableEq, Repr

/-- The connect event listener registered in get_engine (src/database.py
lines 52-56): executes SET statement_timeout TO 8000 on the new DBAPI
connection. -/
def set_statement_timeout (c : PConn) : PConn :=
  { c with statement_timeout := some 8000 }

/-- Opening a new physical connection at time now: the raw connect, after
which the pool fires the connect event, so the listener runs before the
connection is ever handed to application code. -/
def openConn (now : Nat) : PConn :=
  set_statement_timeout
    { statement_timeout := none, createdAt := now, live := true }

/-- Pool state: the idle connections and the number checked out. -/
structure PoolState where
  idle : List PConn
  checkedOut : Nat
  deriving DecidableEq, Repr

/-- Modelled from the spec: the pool implementation is the third-party
driver, not code under src/; this is its documented checkout discipline
(spec section 4.1) instantiated by get_engine's knobs. An idle connection
older than pool_recycle is discarded and replaced by a fresh one; with
pre-ping on, a dead idle connection is likewise discarded and replaced;
otherwise the idle connection is reused. With no idle connection, a new
one is opened only while the open count is below pool_size + max_overflow,
else checkout fails after pool_timeout. Every fresh connection goes
through openConn, hence through the connect listener, before handoff. -/
def acquire (cfg : PoolConfig) (now : Nat) (st : PoolState) :
    Option (PConn × PoolState) :=
  match st.idle with
  | c :: rest =>
      if cfg.recycle < now - c.createdAt ∨ (cfg.pre_ping ∧ ¬ c.live) then
        some (openConn now, { idle := rest, checkedOut := st.checkedOut + 1 })
      else
        some (c, { idle := rest, checkedOut := st.checkedOut + 1 })
  | [] =>
      if st.checkedOut < cfg.size + cfg.max_overflow then
        some (openConn now, { idle := [], checkedOut := st.checkedOut + 1 })
      else
        none

/-- Returning a connection to the pool: it rejoins the idle list. -/
def release (c : PConn) (st : PoolState) : PoolState :=
  { idle := st.idle ++ [c], checkedOut := st.checkedOut - 1 }

/-- Number of physical connections the pool currently owns. -/
def openCount (st : PoolState) : Nat :=
  st.idle.length + st.checkedOut

/-- Pool invariant: every idle connection already went through the connect
listener, and the pool owns at most pool_size + max_overflow
connections. -/
def PoolInv (cfg : PoolConfig) (st : PoolState) : Prop :=
  (∀ c ∈ st.idle, c.statement_timeout = some 8000) ∧
  openCount st ≤ cfg.size + cfg.max_overflow

/-- C3: applied to the key-to-summed-score mapping A to 2, B to 4, the
pairwise derivation outputs exactly the four rows (A,A,1), (A,B,1/2),
(B,A,1/2), (B,B,1): self-pairs and both orderings of the A,B pair are
emitted, and the ratio min/max is the same for (A,B) and (B,A). -/
theorem C3_pairwise_two_keys :
    correlationRows [("A", 2), ("B", 4)] =
      some [("A", "A", 1), ("A", "B", 1/2), ("B", "A", 1/2), ("B", "B", 1)] := by
  norm_num [correlationRows, corrPairs, corrBuild, corrEntry, min_def, max_def]

/-- C2: the ptm and monster insert forms with a blank required field warn,
do not call their insert helper and leave the table unchanged; but the
drug insert form guards on the PTM field, so at the failing input (PTM
field filled, drug field blank) it calls insert_drug with the empty
string and mutates the drugs table, contradicting its own warning text. -/
theorem C2_empty_required_field :
    (∀ ptms, ptmInsertForm "  " ptms =
        { table := ptms, warned := true, helperCalled := false }) ∧
    (∀ mt s h fid t, monsterInsertForm "  " mt s h fid t =
        { table := t, warned := true, helperCalled := false }) ∧
    drugInsertForm "AARS ubi k474" "" [] =
      { table := [""], warned := false, helperCalled := true } :=
  ⟨fun _ => rfl, fun _ _ _ _ _ => rfl, rfl⟩

/-- C1 counterexample: on an injected connectivity failure insert_ptm does
not return no record over an unchanged table — the exception propagates
out of the helper. -/
theorem C1_counterexample :
    insert_ptm (some DBErr.connectivity) [] "A" = .error DBErr.connectivity ∧
    insert_ptm (some DBErr.connectivity) [] "A" ≠ .ok ([], none) :=
  ⟨rfl, fun h => Except.noConfusion h⟩

/-- C1 amended: on a driver failure the read helper fetch_df returns an
empty result set, but the write helpers have no exception handler: the
failure propagates past each write helper boundary as the raised
exception instead of a no-record return. -/
theorem C1_amended_failure_propagation (e : DBErr) :
    (∀ (α : Type) (rows : List α), fetch_df (some e) rows = []) ∧
    (∀ t n, insert_ptm (some e) t n = .error e) ∧
    (∀ t c n, update_ptm (some e) t c n = .error e) ∧
    (∀ t mid, delete_ptm (some e) t mid = .error e) ∧
    (∀ t n, insert_drug (some e) t n = .error e) ∧
    (∀ t c n, update_drug (some e) t c n = .error e) ∧
    (∀ t mid, delete_drug (some e) t mid = .error e) ∧
    (∀ t r v, update_spearman (some e) t r v = .error e) ∧
    (∀ t fid nm mt s h, insert_monster (some e) t fid nm mt s h = .error e) ∧
    (∀ t mid nm mt s h, update_monster (some e) t mid nm mt s h = .error e) ∧
    (∀ t mid, delete_monster (some e) t mid = .error e) :=
  ⟨fun _ _ => rfl, fun _ _ => rfl, fun _ _ _ => rfl, fun _ _ => rfl,
   fun _ _ => rfl, fun _ _ _ => rfl, fun _ _ => rfl, fun _ _ _ => rfl,
   fun _ _ _ _ _ _ => rfl, fun _ _ _ _ _ _ => rfl, fun _ _ => rfl⟩

/-- C7: when any of PGDATABASE, PGUSER or PGPASSWORD is unset, startup
halts with the user-visible message before any engine or connection
exists; when startup does proceed, an unset PGHOST defaulted to localhost
and an unset PGPORT to 5432. -/
theorem C7_env_check (env : Env) :
    ((env "PGDATABASE" = none ∨ env "PGUSER" = none ∨ env "PGPASSWORD" = none) →
      startup env = .error "Missing DB credentials. Please set PGDATABASE, PGUSER, and PGPASSWORD in your .env file.") ∧
    (∀ c, startup env = .ok c →
      (env "PGHOST" = none → c.host = "localhost") ∧
      (env "PGPORT" = none → c.port = "5432")) := by
  constructor
  · rintro (h | h | h) <;> simp [startup, h, truthy]
  · intro c hc
    simp only [startup] at hc
    split at hc
    · cases hc
    · injection hc with hc
      subst hc
      exact ⟨fun h => by simp [h], fun h => by simp [h]⟩

/-- Witness for C7: with an empty environment startup halts with the
message; with only the three required variables set, the host and port
defaults are localhost and 5432. -/
theorem C7_env_check_witness :
    startup (fun _ => none) = .error "Missing DB credentials. Please set PGDATABASE, PGUSER, and PGPASSWORD in your .env file." ∧
    DBConfig.host { host := "localhost", port := "5432", database := "d",
                    user := "u", password := "p" } = "localhost" ∧
    DBConfig.port { host := "localhost", port := "5432", database := "d",
                    user := "u", password := "p" } = "5432" := by
  refine ⟨(C7_env_check (fun _ => none)).1 (Or.inl rfl), ?_, ?_⟩
  · exact ((C7_env_check (fun k =>
      if k = "PGDATABASE" then some "d"
      else if k = "PGUSER" then some "u"
      else if k = "PGPASSWORD" then some "p" else none)).2 _ rfl).1 rfl
  · exact ((C7_env_check (fun k =>
      if k = "PGDATABASE" then some "d"
      else if k = "PGUSER" then some "u"
      else if k = "PGPASSWORD" then some "p" else none)).2 _ rfl).2 rfl

/-- The first element of the RETURNING rows of a string-valued update that
rewrites every matching row to n: some n when the filter matched anything,
none otherwise. -/
theorem filter_map_const_head (t : List String) (c n : String) :
    ((t.filter fun p => p == c).map fun _ => n).head? =
      if c ∈ t then some n else none := by
  induction t with
  | nil => rfl
  | cons a t ih =>
      rcases eq_or_ne a c with h | h
      · subst h; simp [List.filter_cons]
      · have hf : ((a :: t).filter fun p => p == c) = t.filter fun p => p == c := by
          simp [List.filter_cons, h]
        rw [hf, ih]
        by_cases hc : c ∈ t
        · rw [if_pos hc, if_pos (List.mem_cons_of_mem _ hc)]
        · rw [if_neg hc, if_neg (by simp [List.mem_cons, Ne.symm h, hc])]

/-- The first element of a filtered list is the first element satisfying
the filter. -/
theorem filter_head_eq_find (p : ρ → Bool) (t : List ρ) :
    (t.filter p).head? = t.find? p := by
  induction t with
  | nil => rfl
  | cons a t ih =>
      by_cases h : p a
      · simp [List.filter_cons, List.find?_cons, h]
      · simp [List.filter_cons, List.find?_cons, h, ih]

/-- First row of a RETURNING set obtained by mapping the filtered rows:
the first matching row with the mapping applied. -/
theorem filter_map_head_eq_find (p : ρ → Bool) (f : ρ → σ) (t : List ρ) :
    ((t.filter p).map f).head? = (t.find? p).map f := by
  rw [List.head?_map f (t.filter p), filter_head_eq_find]

/-- The first row kept by an equality filter on a string column is the
key itself when present. -/
theorem filter_beq_head (t : List String) (c : String) :
    (t.filter fun p => p == c).head? = if c ∈ t then some c else none := by
  induction t with
  | nil => rfl
  | cons a t ih =>
      rcases eq_or_ne a c with h | h
      · subst h; simp [List.filter_cons]
      · have hf : ((a :: t).filter fun p => p == c) = t.filter fun p => p == c := by
          simp [List.filter_cons, h]
        rw [hf, ih]
        by_cases hc : c ∈ t
        · rw [if_pos hc, if_pos (List.mem_cons_of_mem _ hc)]
        · rw [if_neg hc, if_neg (by simp [List.mem_cons, Ne.symm h, hc])]

/-- C10: every write helper converts at most the first row of its
RETURNING result to a mapping and yields None exactly when zero rows are
affected. Each insert helper affects one row and returns its mapping; the
updates rewrite every matching row but return only the first updated
row's mapping (the two-matching-rows instance of update_ptm spells the
multi-row case out), with None exactly when no row matched; the deletes
remove every matching row and return only the first removed row's
mapping, with None exactly when no row matched. -/
theorem C10_first_returned_row :
    (∀ (t : List String) (n : String),
        insert_ptm none t n = .ok (t ++ [n], some n)) ∧
    (∀ (t : List String) (n : String),
        insert_drug none t n = .ok (t ++ [n], some n)) ∧
    (∀ (t : List Monster) (fid : Int) (nm : String) (mt : Option String)
        (s hid : Int),
        insert_monster none t fid nm mt s hid =
          .ok (t ++ [{ id := fid, name := nm, monster_type := mt,
                       scare_level := s, house_id := hid }],
               some { id := fid, name := nm, monster_type := mt,
                      scare_level := s, house_id := hid })) ∧
    (∀ (t : List String) (c n : String),
        update_ptm none t c n =
          .ok (t.map (fun p => if p == c then n else p),
               if c ∈ t then some n else none)) ∧
    (∀ c n : String, update_ptm none [c, c] c n = .ok ([n, n], some n)) ∧
    (∀ (t : List String) (c n : String),
        update_drug none t c n =
          .ok (t.map (fun d => if d == c then n else d),
               if c ∈ t then some n else none)) ∧
    (∀ (t : List Monster) (mid : Int) (nm : String) (mt : Option String)
        (s hid : Int),
        update_monster none t mid nm mt s hid =
          .ok (t.map (fun m => if m.id == mid then
                 { m with name := nm, monster_type := mt,
                          scare_level := s, house_id := hid } else m),
               (t.find? fun m => m.id == mid).map fun m =>
                 { m with name := nm, monster_type := mt,
                          scare_level := s, house_id := hid })) ∧
    (∀ (t : List Monster) (mid : Int) (nm : String) (mt : Option String)
        (s hid : Int) (res : List Monster × Option Monster),
        update_monster none t mid nm mt s hid = .ok res →
          (res.2 = none ↔ ∀ m ∈ t, m.id ≠ mid)) ∧
    (∀ (t : List CorrRow) (r : Int) (v : ℚ),
        update_spearman none t r v =
          .ok (t.map (fun x => if x.id == r then
                 { x with spearman_score := v } else x),
               (t.find? fun x => x.id == r).map fun x =>
                 { x with spearman_score := v })) ∧
    (∀ (t : List CorrRow) (r : Int) (v : ℚ)
        (res : List CorrRow × Option CorrRow),
        update_spearman none t r v = .ok res →
          (res.2 = none ↔ ∀ x ∈ t, x.id ≠ r)) ∧
    (∀ (t : List String) (mid : String),
        delete_ptm none t mid =
          .ok (t.filter fun p => !(p == mid),
               if mid ∈ t then some mid else none)) ∧
    (∀ (t : List String) (mid : String),
        delete_drug none t mid =
          .ok (t.filter fun d => !(d == mid),
               if mid ∈ t then some mid else none)) ∧
    (∀ (t : List Monster) (mid : Int),
        delete_monster none t mid =
          .ok (t.filter fun m => !(m.id == mid),
               t.find? fun m => m.id == mid)) ∧
    (∀ (t : List Monster) (mid : Int) (res : List Monster × Option Monster),
        delete_monster none t mid = .ok res →
          (res.2 = none ↔ ∀ m ∈ t, m.id ≠ mid)) := by
  have hmon : ∀ (t : List Monster) (mid : Int) (nm : String)
      (mt : Option String) (s hid : Int),
      update_monster none t mid nm mt s hid =
        .ok (t.map (fun m => if m.id == mid then
               { m with name := nm, monster_type := mt,
                        scare_level := s, house_id := hid } else m),
             (t.find? fun m => m.id == mid).map fun m =>
               { m with name := nm, monster_type := mt,
                        scare_level := s, house_id := hid }) := by
    intro t mid nm mt s hid
    simp only [update_monster, sqlUpdate, firstRowOrNone]
    rw [filter_map_head_eq_find]
  have hsp : ∀ (t : List CorrRow) (r : Int) (v : ℚ),
      update_spearman none t r v =
        .ok (t.map (fun x => if x.id == r then
               { x with spearman_score := v } else x),
             (t.find? fun x => x.id == r).map fun x =>
               { x with spearman_score := v }) := by
    intro t r v
    simp only [update_spearman, sqlUpdate, firstRowOrNone]
    rw [filter_map_head_eq_find]
  have hdelm : ∀ (t : List Monster) (mid : Int),
      delete_monster none t mid =
        .ok (t.filter fun m => !(m.id == mid),
             t.find? fun m => m.id == mid) := by
    intro t mid
    simp only [delete_monster, sqlDelete, firstRowOrNone]
    rw [filter_head_eq_find]
  refine ⟨fun t n => rfl, fun t n => rfl, fun t fid nm mt s hid => rfl,
    fun t c n => ?_, fun c n => ?_, fun t c n => ?_,
    hmon, ?_, hsp, ?_, fun t mid => ?_, fun t mid => ?_, hdelm, ?_⟩
  · simp only [update_ptm, sqlUpdate, firstRowOrNone]
    rw [filter_map_const_head]
  · simp [update_ptm, sqlUpdate, firstRowOrNone]
  · simp only [update_drug, sqlUpdate, firstRowOrNone]
    rw [filter_map_const_head]
  · intro t mid nm mt s hid res h
    rw [hmon] at h
    injection h with h
    subst h
    simp [List.find?_eq_none]
  · intro t r v res h
    rw [hsp] at h
    injection h with h
    subst h
    simp [List.find?_eq_none]
  · simp only [delete_ptm, sqlDelete, firstRowOrNone]
    rw [filter_beq_head]
  · simp only [delete_drug, sqlDelete, firstRowOrNone]
    rw [filter_beq_head]
  · intro t mid res h
    rw [hdelm] at h
    injection h with h
    subst h
    simp [List.find?_eq_none]

/-- Witness for C10: the none-iff-zero-affected conjuncts applied at
concrete singleton tables whose identifier does not match. -/
theorem C10_first_returned_row_witness :
    ((none : Option Monster) = none ↔
      ∀ m ∈ [({ id := 1, name := "Boo", monster_type := none,
                scare_level := 5, house_id := 1 } : Monster)], m.id ≠ 2) ∧
    ((none : Option CorrRow) = none ↔
      ∀ x ∈ [({ id := 1, ptm1 := "A", ptm2 := "B",
                spearman_score := 1 } : CorrRow)], x.id ≠ 2) ∧
    ((none : Option Monster) = none ↔
      ∀ m ∈ [({ id := 1, name := "Boo", monster_type := none,
                scare_level := 5, house_id := 1 } : Monster)], m.id ≠ 3) := by
  refine ⟨?_, ?_, ?_⟩
  · exact C10_first_returned_row.2.2.2.2.2.2.2.1
      [{ id := 1, name := "Boo", monster_type := none,
         scare_level := 5, house_id := 1 }] 2 "n" none 5 1
      ([{ id := 1, name := "Boo", monster_type := none,
          scare_level := 5, house_id := 1 }], none) rfl
  · exact C10_first_returned_row.2.2.2.2.2.2.2.2.2.1
      [{ id := 1, ptm1 := "A", ptm2 := "B", spearman_score := 1 }] 2 0
      ([{ id := 1, ptm1 := "A", ptm2 := "B", spearman_score := 1 }], none) rfl
  · exact C10_first_returned_row.2.2.2.2.2.2.2.2.2.2.2.2.2
      [{ id := 1, name := "Boo", monster_type := none,
         scare_level := 5, house_id := 1 }] 3
      ([{ id := 1, name := "Boo", monster_type := none,
          scare_level := 5, house_id := 1 }], none) rfl

/-- An UPDATE whose WHERE-predicate matches no row leaves the table
unchanged and returns no rows. -/
theorem sqlUpdate_no_match (p : ρ → Bool) (f : ρ → ρ) (t : List ρ)
    (h : ∀ r ∈ t, p r = false) : sqlUpdate p f t = (t, []) := by
  unfold sqlUpdate
  have hf : t.filter p = [] := by
    rw [List.filter_eq_nil_iff]
    intro a ha
    simp [h a ha]
  rw [hf]
  have hm : (t.map fun r => if p r then f r else r) = t := by
    conv_rhs => rw [show t = t.map id from (List.map_id t).symm]
    exact List.map_congr_left fun a ha => by simp [h a ha]
  rw [hm]
  rfl

/-- A DELETE whose WHERE-predicate matches no row leaves the table
unchanged and returns no rows. -/
theorem sqlDelete_no_match (p : ρ → Bool) (t : List ρ)
    (h : ∀ r ∈ t, p r = false) : sqlDelete p t = (t, []) := by
  unfold sqlDelete
  have hf : t.filter p = [] := by
    rw [List.filter_eq_nil_iff]
    intro a ha
    simp [h a ha]
  have hs : (t.filter fun r => !(p r)) = t := by
    rw [List.filter_eq_self]
    intro a ha
    simp [h a ha]
  rw [hf, hs]

/-- C6: every update helper (update_monster, update_ptm, update_drug,
update_spearman) and every delete helper (delete_monster, delete_ptm,
delete_drug) applied to an identifier not present in its table returns no
record and leaves the table contents unchanged. -/
theorem C6_nonexistent_identifier :
    (∀ (t : List Monster) (mid : Int) (nm : String) (mt : Option String)
        (s hid : Int), (∀ m ∈ t, m.id ≠ mid) →
        update_monster none t mid nm mt s hid = .ok (t, none)) ∧
    (∀ (t : List String) (c n : String), c ∉ t →
        update_ptm none t c n = .ok (t, none)) ∧
    (∀ (t : List String) (c n : String), c ∉ t →
        update_drug none t c n = .ok (t, none)) ∧
    (∀ (t : List CorrRow) (r : Int) (v : ℚ), (∀ x ∈ t, x.id ≠ r) →
        update_spearman none t r v = .ok (t, none)) ∧
    (∀ (t : List Monster) (mid : Int), (∀ m ∈ t, m.id ≠ mid) →
        delete_monster none t mid = .ok (t, none)) ∧
    (∀ (t : List String) (mid : String), mid ∉ t →
        delete_ptm none t mid = .ok (t, none)) ∧
    (∀ (t : List String) (mid : String), mid ∉ t →
        delete_drug none t mid = .ok (t, none)) := by
  refine ⟨?_, ?_, ?_, ?_, ?_, ?_, ?_⟩
  · intro t mid nm mt s hid h
    simp only [update_monster]
    rw [sqlUpdate_no_match _ _ _ (fun m hm => by simp [h m hm])]
    rfl
  · intro t c n h
    simp only [update_ptm]
    rw [sqlUpdate_no_match _ _ _ (fun r hr => by
      simp [ne_of_mem_of_not_mem hr h])]
    rfl
  · intro t c n h
    simp only [update_drug]
    rw [sqlUpdate_no_match _ _ _ (fun r hr => by
      simp [ne_of_mem_of_not_mem hr h])]
    rfl
  · intro t r v h
    simp only [update_spearman]
    rw [sqlUpdate_no_match _ _ _ (fun x hx => by simp [h x hx])]
    rfl
  · intro t mid h
    simp only [delete_monster]
    rw [sqlDelete_no_match _ _ (fun m hm => by simp [h m hm])]
    rfl
  · intro t mid h
    simp only [delete_ptm]
    rw [sqlDelete_no_match _ _ (fun r hr => by
      simp [ne_of_mem_of_not_mem hr h])]
    rfl
  · intro t mid h
    simp only [delete_drug]
    rw [sqlDelete_no_match _ _ (fun r hr => by
      simp [ne_of_mem_of_not_mem hr h])]
    rfl

/-- Witness for C6: concrete tables with an absent identifier, each helper
returning no record over the unchanged table. -/
theorem C6_nonexistent_identifier_witness :
    update_monster none [{ id := 1, name := "Boo", monster_type := none,
                           scare_level := 5, house_id := 1 }] 2 "n" none 5 1 =
      .ok ([{ id := 1, name := "Boo", monster_type := none,
              scare_level := 5, house_id := 1 }], none) ∧
    update_ptm none ["x"] "y" "z" = .ok (["x"], none) ∧
    update_drug none ["x"] "y" "z" = .ok (["x"], none) ∧
    update_spearman none [{ id := 1, ptm1 := "A", ptm2 := "B",
                            spearman_score := 1 }] 2 0 =
      .ok ([{ id := 1, ptm1 := "A", ptm2 := "B", spearman_score := 1 }], none) ∧
    delete_monster none [{ id := 1, name := "Boo", monster_type := none,
                           scare_level := 5, house_id := 1 }] 2 =
      .ok ([{ id := 1, name := "Boo", monster_type := none,
              scare_level := 5, house_id := 1 }], none) ∧
    delete_ptm none ["x"] "y" = .ok (["x"], none) ∧
    delete_drug none ["x"] "y" = .ok (["x"], none) := by
  refine ⟨C6_nonexistent_identifier.1 _ _ _ _ _ _ ?_,
    C6_nonexistent_identifier.2.1 _ _ _ ?_,
    C6_nonexistent_identifier.2.2.1 _ _ _ ?_,
    C6_nonexistent_identifier.2.2.2.1 _ _ _ ?_,
    C6_nonexistent_identifier.2.2.2.2.1 _ _ ?_,
    C6_nonexistent_identifier.2.2.2.2.2.1 _ _ ?_,
    C6_nonexistent_identifier.2.2.2.2.2.2 _ _ ?_⟩ <;> simp

/-- If every visited pair has a nonzero denominator, the loop completes. -/
theorem corrBuild_isSome (l : List ((String × ℚ) × (String × ℚ)))
    (h : ∀ ab ∈ l, max ab.1.2 ab.2.2 ≠ 0) :
    ∃ out, corrBuild l = some out := by
  induction l with
  | nil => exact ⟨[], rfl⟩
  | cons ab rest ih =>
      obtain ⟨out, hout⟩ := ih fun x hx => h x (List.mem_cons_of_mem _ hx)
      refine ⟨(ab.1.1, ab.2.1, min ab.1.2 ab.2.2 / max ab.1.2 ab.2.2) :: out, ?_⟩
      simp [corrBuild, corrEntry, h ab (List.mem_cons_self _ _), hout]

/-- If some visited pair has a zero denominator, the loop dies with
ZeroDivisionError. -/
theorem corrBuild_none (l : List ((String × ℚ) × (String × ℚ)))
    (ab : (String × ℚ) × (String × ℚ)) (hab : ab ∈ l)
    (h : max ab.1.2 ab.2.2 = 0) : corrBuild l = none := by
  induction l with
  | nil => cases hab
  | cons x rest ih =>
      rcases List.mem_cons.mp hab with hx | hx
      · subst hx
        simp [corrBuild, corrEntry, h]
      · unfold corrBuild
        cases hce : corrEntry x.1.2 x.2.2 with
        | none => rfl
        | some q => simp [ih hx]

/-- C4: the division min(s1,s2)/max(s1,s2) is unguarded — when some key's
summed score is zero the self-pair of that key divides by zero and the
loop raises the runtime's ZeroDivisionError — while under the
precondition that every summed score is nonzero the division-by-zero
branch is unreachable and the loop completes. -/
theorem C4_unguarded_division (rs : List (String × ℚ)) :
    ((∃ k, (k, (0 : ℚ)) ∈ rs) → correlationRows rs = none) ∧
    ((∀ p ∈ rs, p.2 ≠ 0) → ∃ out, correlationRows rs = some out) := by
  constructor
  · rintro ⟨k, hk⟩
    have hmem : (((k, (0 : ℚ)), (k, (0 : ℚ))) :
        (String × ℚ) × (String × ℚ)) ∈ corrPairs rs := by
      simp only [corrPairs, List.mem_flatMap, List.mem_map]
      exact ⟨(k, 0), hk, (k, 0), hk, rfl⟩
    exact corrBuild_none _ _ hmem (by simp)
  · intro h
    refine corrBuild_isSome _ fun ab hab => ?_
    simp only [corrPairs, List.mem_flatMap, List.mem_map] at hab
    obtain ⟨a, ha, b, hb, rfl⟩ := hab
    intro hmax
    rcases max_choice a.2 b.2 with hm | hm
    · exact h a ha (by rw [← hm]; exact hmax)
    · exact h b hb (by rw [← hm]; exact hmax)

/-- Witness for C4: with the single summed score A to 0 the loop dies on
the self-pair; with the scores A to 2, B to 4 it completes. -/
theorem C4_unguarded_division_witness :
    correlationRows [("A", (0 : ℚ))] = none ∧
    ∃ out, correlationRows [("A", (2 : ℚ)), ("B", 4)] = some out :=
  ⟨(C4_unguarded_division [("A", 0)]).1 ⟨"A", by simp⟩,
   (C4_unguarded_division [("A", 2), ("B", 4)]).2 (by
     intro p hp
     rcases List.mem_cons.mp hp with h | h
     · subst h; norm_num
     · rcases List.mem_cons.mp h with h2 | h2
       · subst h2; norm_num
       · cases h2)⟩

/-- The cross join of m ptms and n drugs has m * n rows. -/
theorem crossJoin_length (ptms drugs : List String) :
    (crossJoin ptms drugs).length = ptms.length * drugs.length := by
  induction ptms with
  | nil => simp [crossJoin]
  | cons a t ih =>
      simp [crossJoin, List.flatMap_cons, ih, Nat.succ_mul, Nat.add_comm] at ih ⊢
      omega

/-- The cross join of duplicate-free inputs is duplicate-free: each
(ptm, drug) combination appears exactly once. -/
theorem crossJoin_nodup {ptms drugs : List String} (hp : ptms.Nodup)
    (hd : drugs.Nodup) : (crossJoin ptms drugs).Nodup :=
  List.Nodup.product hp hd

/-- The cross join contains a pair exactly when its components come from
the two inputs. -/
theorem mem_crossJoin (ptms drugs : List String) (p d : String) :
    (p, d) ∈ crossJoin ptms drugs ↔ p ∈ ptms ∧ d ∈ drugs := by
  simp [crossJoin, List.mem_flatMap, List.mem_map]

/-- Projecting the written dataset rows to their (ptm, drug) components
recovers the cross join. -/
theorem ptmdatasetRows_pairs (ptms drugs : List String) (draw : Nat → ℚ) :
    ((ptmdatasetRows ptms drugs draw).map fun r => (r.ptm, r.drug)) =
      crossJoin ptms drugs := by
  simp only [ptmdatasetRows, List.map_map]
  show (crossJoin ptms drugs).enum.map Prod.snd = crossJoin ptms drugs
  simp

/-- Every written reaction score is uniform(0,10) of a draw in [0,1), so
it lies in the half-open interval [0, 10). -/
theorem ptmdatasetRows_score_bound (ptms drugs : List String)
    (draw : Nat → ℚ) (hdraw : ∀ i, 0 ≤ draw i ∧ draw i < 1) :
    ∀ r ∈ ptmdatasetRows ptms drugs draw,
      0 ≤ r.reaction_score ∧ r.reaction_score < 10 := by
  intro r hr
  simp only [ptmdatasetRows, List.mem_map] at hr
  obtain ⟨x, _, rfl⟩ := hr
  obtain ⟨h0, h1⟩ := hdraw x.1
  constructor
  · simp only [uniform]
    nlinarith
  · simp only [uniform]
    nlinarith

/-- C5: for m distinct PTMs and n distinct drugs the derived dataset has
exactly m * n rows, one per (ptm, drug) pair — the pair projection is the
duplicate-free cross join covering exactly the input combinations — and
every randomized reaction score lies in [0, 10). -/
theorem C5_cross_join_dataset (ptms drugs : List String) (draw : Nat → ℚ)
    (hp : ptms.Nodup) (hd : drugs.Nodup)
    (hdraw : ∀ i, 0 ≤ draw i ∧ draw i < 1) :
    (ptmdatasetRows ptms drugs draw).length = ptms.length * drugs.length ∧
    ((ptmdatasetRows ptms drugs draw).map fun r => (r.ptm, r.drug)) =
      crossJoin ptms drugs ∧
    (crossJoin ptms drugs).Nodup ∧
    (∀ p d, (p, d) ∈ crossJoin ptms drugs ↔ p ∈ ptms ∧ d ∈ drugs) ∧
    ∀ r ∈ ptmdatasetRows ptms drugs draw,
      0 ≤ r.reaction_score ∧ r.reaction_score < 10 := by
  refine ⟨?_, ptmdatasetRows_pairs ptms drugs draw, crossJoin_nodup hp hd,
    mem_crossJoin ptms drugs, ptmdatasetRows_score_bound ptms drugs draw hdraw⟩
  simp only [ptmdatasetRows, List.length_map, List.enum_length]
  exact crossJoin_length ptms drugs

/-- Witness for C5: two PTMs and one drug with the draw one half give two
rows. -/
theorem C5_cross_join_dataset_witness :
    (ptmdatasetRows ["A", "B"] ["X"] fun _ => 1/2).length = 2 * 1 :=
  (C5_cross_join_dataset ["A", "B"] ["X"] (fun _ => 1/2)
    (by decide) (by decide) (fun i => by norm_num)).1

/-- C9 counterexample: for one ptm and one drug the table written by the
Dataset tab has columns index, ptm, key, drug, reaction_score — the
cross-join helper column key (and the frame index) are written too, so
the table does not have exactly the attributes ptm, drug,
reaction_score. -/
theorem C9_counterexample :
    (writeDatasetTab ["A"] ["X"] (fun _ => 1/2) none).map SqlTable.cols =
      some ["index", "ptm", "key", "drug", "reaction_score"] ∧
    "key" ∉ (["ptm", "drug", "reaction_score"] : List String) ∧
    (["index", "ptm", "key", "drug", "reaction_score"] : List String) ≠
      ["ptm", "drug", "reaction_score"] := by
  refine ⟨rfl, by decide, by decide⟩

/-- C9 amended: the table written on each Dataset-tab view has the
attributes index, ptm, key, drug, reaction_score (the three claimed ones
plus the frame index and the cross-join helper column key), one row per
combination of a distinct ptm and a distinct drug, and its prior contents
are replaced wholesale, whatever they were. -/
theorem C9_amended_dataset_rewrite (ptms drugs : List String)
    (draw : Nat → ℚ) (old : Option SqlTable)
    (hp : ptms.Nodup) (hd : drugs.Nodup) :
    writeDatasetTab ptms drugs draw old =
      some { cols := ["index", "ptm", "key", "drug", "reaction_score"],
             rows := ptmdatasetRows ptms drugs draw } ∧
    (ptmdatasetRows ptms drugs draw).length = ptms.length * drugs.length ∧
    ((ptmdatasetRows ptms drugs draw).map fun r => (r.ptm, r.drug)) =
      crossJoin ptms drugs ∧
    (crossJoin ptms drugs).Nodup ∧
    writeDatasetTab ptms drugs draw old = writeDatasetTab ptms drugs draw none := by
  refine ⟨rfl, ?_, ptmdatasetRows_pairs ptms drugs draw,
    crossJoin_nodup hp hd, rfl⟩
  simp only [ptmdatasetRows, List.length_map, List.enum_length]
  exact crossJoin_length ptms drugs

/-- Witness for C9 amended: a concrete prior table with a junk column is
replaced by the freshly derived one. -/
theorem C9_amended_dataset_rewrite_witness :
    writeDatasetTab ["A"] ["X"] (fun _ => 1/2)
        (some { cols := ["junk"], rows := [] }) =
      some { cols := ["index", "ptm", "key", "drug", "reaction_score"],
             rows := ptmdatasetRows ["A"] ["X"] fun _ => 1/2 } :=
  (C9_amended_dataset_rewrite ["A"] ["X"] (fun _ => 1/2)
    (some { cols := ["junk"], rows := [] }) (by decide) (by decide)).1

/-- C8: under the engine configuration of get_engine, a successful
checkout hands out a connection that already had SET statement_timeout TO
8000 executed on it, preserves the pool invariant, never lets the pool
own more than the 5 configured connections (max_overflow is 0), and
reuses an idle connection only if it is alive (pre-ping) and no older
than the 1800-second recycle age. -/
theorem C8_pool_contract (now : Nat) (st : PoolState) (c : PConn)
    (st' : PoolState) (hinv : PoolInv getEngineConfig st)
    (hacq : acquire getEngineConfig now st = some (c, st')) :
    c.statement_timeout = some 8000 ∧
    PoolInv getEngineConfig st' ∧
    openCount st' ≤ 5 ∧
    (c ∈ st.idle → c.live ∧ now - c.createdAt ≤ 1800) := by
  obtain ⟨hto, hcap⟩ := hinv
  cases hidle : st.idle with
  | nil =>
      simp only [acquire, hidle] at hacq
      split at hacq
      · rename_i hlt
        injection hacq with hacq
        injection hacq with hc hst
        subst hc; subst hst
        have h5 : st.checkedOut < 5 := by simpa [getEngineConfig] using hlt
        refine ⟨rfl, ⟨fun x hx => absurd hx (List.not_mem_nil x), ?_⟩, ?_, ?_⟩
        · simp only [openCount, List.length_nil, Nat.zero_add, getEngineConfig]
          omega
        · simp only [openCount, List.length_nil, Nat.zero_add]
          omega
        · intro hc2
          cases hc2
      · cases hacq
  | cons x rest =>
      simp only [acquire, hidle] at hacq
      have hlen : rest.length + (st.checkedOut + 1) ≤ 5 := by
        have h := hcap
        simp only [openCount, hidle, List.length_cons, getEngineConfig] at h
        omega
      split at hacq
      · injection hacq with hacq
        injection hacq with hc hst
        subst hc; subst hst
        refine ⟨rfl, ⟨?_, ?_⟩, ?_, ?_⟩
        · intro y hy
          exact hto y (by rw [hidle]; exact List.mem_cons_of_mem _ hy)
        · simp only [openCount, getEngineConfig]
          omega
        · simp only [openCount]
          omega
        · intro _
          exact ⟨rfl, by simp [openConn, set_statement_timeout]⟩
      · rename_i hguard
        injection hacq with hacq
        injection hacq with hc hst
        subst hc; subst hst
        have hage : now - x.createdAt ≤ 1800 := by
          have h1 : ¬(getEngineConfig.recycle < now - x.createdAt) :=
            fun h => hguard (Or.inl h)
          simpa [getEngineConfig] using Nat.le_of_not_lt h1
        have hlive : x.live = true := by
          by_contra hdead
          exact hguard (Or.inr ⟨rfl, hdead⟩)
        refine ⟨hto x (by rw [hidle]; exact List.mem_cons_self _ _),
          ⟨?_, ?_⟩, ?_, ?_⟩
        · intro y hy
          exact hto y (by rw [hidle]; exact List.mem_cons_of_mem _ hy)
        · simp only [openCount, getEngineConfig]
          omega
        · simp only [openCount]
          omega
        · intro _
          exact ⟨hlive, hage⟩

/-- Witness for C8: a pool owning one healthy idle connection with the
timeout set hands it back out. -/
theorem C8_pool_contract_witness :
    PConn.statement_timeout { statement_timeout := some 8000, createdAt := 0,
                              live := true } = some 8000 := by
  have h := C8_pool_contract 10
    { idle := [{ statement_timeout := some 8000, createdAt := 0, live := true }],
      checkedOut := 0 }
    { statement_timeout := some 8000, createdAt := 0, live := true }
    { idle := [], checkedOut := 1 }
    ⟨by intro x hx; simp at hx; rw [hx], by simp [openCount, getEngineConfig]⟩
    (by rfl)
  exact h.1
